import Mathlib

/-!
Shallow embedding of the `valorust` crate (src/lib.rs): a typed client for a
game-statistics REST API. The embedding covers the season-token codec
(`EpisodeAndAct`), the untagged success/failure response envelope
(`ApiResponse<T>`), the region enum, and URL construction, together with
theorems checking the crate's specification against the code.

JSON values are modelled by an inductive `Json` type (numbers restricted to
integers, which covers every numeric field of this API: all are `u32`/`i32`).
Rust strings iterated via `chars()` are modelled by Lean's `String.data`
(both are sequences of Unicode scalar values).
-/

namespace Valorust

/-- JSON values, as produced by `serde_json` parsing of a response body.
Numbers are modelled as integers (every numeric field in this crate is an
integral machine type). -/
inductive Json where
  | null : Json
  | bool (b : Bool) : Json
  | num (n : Int) : Json
  | str (s : String) : Json
  | arr (items : List Json) : Json
  | obj (fields : List (String × Json)) : Json

/-- Models Rust `char::is_numeric` from `std`: true iff the character's
Unicode general category is Nd, Nl or No. Tabulated here over the scalar
ranges below U+0970 that this development evaluates it on: the ASCII digits
U+0030–U+0039 (Nd), the Latin-1 superscripts U+00B2, U+00B3, U+00B9 and
vulgar fractions U+00BC–U+00BE (No), the Arabic-Indic digits U+0660–U+0669
and U+06F0–U+06F9 (Nd), and the Devanagari digits U+0966–U+096F (Nd). -/
def rustIsNumeric (c : Char) : Bool :=
  decide ((0x30 ≤ c.toNat ∧ c.toNat ≤ 0x39) ∨
    c.toNat = 0xB2 ∨ c.toNat = 0xB3 ∨ c.toNat = 0xB9 ∨
    (0xBC ≤ c.toNat ∧ c.toNat ≤ 0xBE) ∨
    (0x660 ≤ c.toNat ∧ c.toNat ≤ 0x669) ∨
    (0x6F0 ≤ c.toNat ∧ c.toNat ≤ 0x6F9) ∨
    (0x966 ≤ c.toNat ∧ c.toNat ≤ 0x96F))

/-- `mmr_data::EpisodeAndAct` (lib.rs:193–196): `episode: u32, act: u32`,
modelled with `Nat` fields (no arithmetic is ever performed on them; every
value the code stores is a Unicode scalar value, well below `2^32`). -/
structure EpisodeAndAct where
  episode : Nat
  act : Nat
deriving DecidableEq, Repr

/-- `EpisodeAndAct::to_value` (lib.rs:199–201):
`format!("e{}a{}", self.episode, self.act)`; `u32` renders in decimal with
no padding, i.e. `Nat.repr`. -/
def EpisodeAndAct.to_value (t : EpisodeAndAct) : String :=
  "e" ++ Nat.repr t.episode ++ "a" ++ Nat.repr t.act

/-- The `Serialize` impl for `EpisodeAndAct` (lib.rs:206–214): it rebuilds
`format!("e{}a{}", self.episode, self.act)` itself and emits it with
`serialize_str`, so under `serde_json` it always succeeds and produces a
JSON string. -/
def EpisodeAndAct.serialize (t : EpisodeAndAct) : Json :=
  Json.str ("e" ++ Nat.repr t.episode ++ "a" ++ Nat.repr t.act)

/-- The body of the `Deserialize` impl for `EpisodeAndAct` (lib.rs:221–240)
after the inner `String::deserialize` step produced `string`:
collect `string.chars()`, match a 4-element slice (else
`custom("Invalid length")`); reject when position 0 ≠ `'e'` or position 2 ≠
`'a'`, then when position 1 or position 3 is not `char::is_numeric`, both
with `custom(format!("Invalid format, format recieved: {string}"))` (typo
as in the source); on success store `episode_number.into()` and
`act_number.into()`, i.e. the characters' Unicode scalar values
(`From<char> for u32`), with no range check on the act. -/
def EpisodeAndAct.deserializeString (string : String) : Except String EpisodeAndAct :=
  match string.data with
  | [e, episode_number, a, act_number] =>
    if e ≠ 'e' ∨ a ≠ 'a' then
      Except.error ("Invalid format, format recieved: " ++ string)
    else if rustIsNumeric episode_number = false ∨ rustIsNumeric act_number = false then
      Except.error ("Invalid format, format recieved: " ++ string)
    else
      Except.ok ⟨episode_number.toNat, act_number.toNat⟩
  | _ => Except.error "Invalid length"

/-- The full `Deserialize` impl for `EpisodeAndAct` under `serde_json`:
`String::deserialize` demands a JSON string, then the checks above run. -/
def EpisodeAndAct.deserialize : Json → Except String EpisodeAndAct
  | Json.str s => EpisodeAndAct.deserializeString s
  | _ => Except.error "invalid type: expected a string"


/-- `ApiError` (lib.rs:12–17): `message: String, code: u32, details: String`. -/
structure ApiError where
  message : String
  code : Nat
  details : String
deriving DecidableEq, Repr

/-- `ApiResponse<T>` (lib.rs:5–10), a `#[serde(untagged)]` enum with struct
variants `Success { status: u32, data: T }` and
`Failure { status: u32, errors: Vec<ApiError> }`. -/
inductive ApiResponse (T : Type) where
  | Success (status : Nat) (data : T) : ApiResponse T
  | Failure (status : Nat) (errors : List ApiError) : ApiResponse T
deriving DecidableEq, Repr

/-- `serde_json` deserialization of a `u32` field: a JSON number within
`0 ≤ n < 2^32`; anything else is a type or range error. -/
def decodeU32 : Json → Except String Nat
  | Json.num n =>
    if 0 ≤ n ∧ n < 4294967296 then Except.ok n.toNat
    else Except.error "invalid value: out of range for u32"
  | _ => Except.error "invalid type: expected u32"

/-- `serde_json` deserialization of a `String` field. -/
def decodeString : Json → Except String String
  | Json.str s => Except.ok s
  | _ => Except.error "invalid type: expected a string"

/-- First value bound to `key` in a JSON object, in source order. Models the
derived visitor's field lookup for the plain data structs of this crate
(none of the claims involves an object with a duplicated key, where the
derived impl would instead error). -/
def getField (fields : List (String × Json)) (key : String) : Option Json :=
  (fields.find? (fun f => f.1 == key)).map (fun f => f.2)

/-- A required struct field: present and well-formed, else the derived
impl's error. -/
def reqField (fields : List (String × Json)) (key : String)
    (dec : Json → Except String A) : Except String A :=
  match getField fields key with
  | some v => dec v
  | none => Except.error ("missing field " ++ key)

/-- Derived `Deserialize` for `ApiError`: the three required fields
`message`, `code`, `details`; unknown fields ignored (serde default). -/
def decodeApiError : Json → Except String ApiError
  | Json.obj fields => do
    let message ← reqField fields "message" decodeString
    let code ← reqField fields "code" decodeU32
    let details ← reqField fields "details" decodeString
    pure ⟨message, code, details⟩
  | _ => Except.error "invalid type: expected struct ApiError"

/-- `Vec<ApiError>` deserialization: a JSON array, each element an
`ApiError`. -/
def decodeApiErrorList : Json → Except String (List ApiError)
  | Json.arr items => items.mapM decodeApiError
  | _ => Except.error "invalid type: expected a sequence"

/-- The derived map visitor for the untagged `Success` variant: walk the
object's entries in order; `status` decodes as `u32` and `data` via
`decodeT` at the point their key appears, a repeated key is a duplicate
field error, any other key is ignored (serde default); at the end both
fields must have been seen. -/
def successFields (decodeT : Json → Except String T) :
    List (String × Json) → Option Nat → Option T → Except String (Nat × T)
  | [], some status, some data => Except.ok (status, data)
  | [], none, _ => Except.error "missing field status"
  | [], some _, none => Except.error "missing field data"
  | (key, v) :: rest, status, data =>
    if key = "status" then
      match status with
      | some _ => Except.error "duplicate field status"
      | none =>
        match decodeU32 v with
        | Except.ok n => successFields decodeT rest (some n) data
        | Except.error e => Except.error e
    else if key = "data" then
      match data with
      | some _ => Except.error "duplicate field data"
      | none =>
        match decodeT v with
        | Except.ok t => successFields decodeT rest status (some t)
        | Except.error e => Except.error e
    else successFields decodeT rest status data

/-- The derived map visitor for the untagged `Failure` variant, with fields
`status` and `errors`. -/
def failureFields :
    List (String × Json) → Option Nat → Option (List ApiError) →
    Except String (Nat × List ApiError)
  | [], some status, some errors => Except.ok (status, errors)
  | [], none, _ => Except.error "missing field status"
  | [], some _, none => Except.error "missing field errors"
  | (key, v) :: rest, status, errors =>
    if key = "status" then
      match status with
      | some _ => Except.error "duplicate field status"
      | none =>
        match decodeU32 v with
        | Except.ok n => failureFields rest (some n) errors
        | Except.error e => Except.error e
    else if key = "errors" then
      match errors with
      | some _ => Except.error "duplicate field errors"
      | none =>
        match decodeApiErrorList v with
        | Except.ok es => failureFields rest status (some es)
        | Except.error e => Except.error e
    else failureFields rest status errors

/-- Attempt to read the buffered content as the `Success` variant. -/
def decodeSuccess (decodeT : Json → Except String T) : Json → Except String (Nat × T)
  | Json.obj fields => successFields decodeT fields none none
  | _ => Except.error "invalid type: expected struct variant Success"

/-- Attempt to read the buffered content as the `Failure` variant. -/
def decodeFailure : Json → Except String (Nat × List ApiError)
  | Json.obj fields => failureFields fields none none
  | _ => Except.error "invalid type: expected struct variant Failure"

/-- `#[serde(untagged)]` deserialization of `ApiResponse<T>` (lib.rs:5–10):
buffer the content, try the variants in declaration order — `Success`
first, then `Failure` — and if neither matches report the generic untagged
error. `decodeT` is the `Deserialize` impl of the payload type `T`. -/
def decodeApiResponse (decodeT : Json → Except String T) (j : Json) :
    Except String (ApiResponse T) :=
  match decodeSuccess decodeT j with
  | Except.ok (status, data) => Except.ok (ApiResponse.Success status data)
  | Except.error _ =>
    match decodeFailure j with
    | Except.ok (status, errors) => Except.ok (ApiResponse.Failure status errors)
    | Except.error _ =>
      Except.error "data did not match any variant of untagged enum ApiResponse"

/-- `AccountRegion` (lib.rs:21–28), serialized with
`#[serde(rename_all = "lowercase")]`. -/
inductive AccountRegion where
  | EU : AccountRegion
  | NA : AccountRegion
  | KR : AccountRegion
  | AS : AccountRegion
deriving DecidableEq, Repr

/-- `AccountRegion::to_value` (lib.rs:30–38): the lowercase path fragment. -/
def AccountRegion.to_value : AccountRegion → String
  | AccountRegion.EU => "eu"
  | AccountRegion.NA => "na"
  | AccountRegion.KR => "kr"
  | AccountRegion.AS => "as"

/-- Derived `Serialize` for `AccountRegion` under
`#[serde(rename_all = "lowercase")]`: a unit variant serializes as its
renamed (lowercased) name string. -/
def AccountRegion.serialize : AccountRegion → Json
  | AccountRegion.EU => Json.str "eu"
  | AccountRegion.NA => Json.str "na"
  | AccountRegion.KR => Json.str "kr"
  | AccountRegion.AS => Json.str "as"

/-- Derived `Deserialize` for `AccountRegion` under
`#[serde(rename_all = "lowercase")]`: accepts exactly the lowercased
variant names. -/
def AccountRegion.deserialize : Json → Except String AccountRegion
  | Json.str s =>
    if s = "eu" then Except.ok AccountRegion.EU
    else if s = "na" then Except.ok AccountRegion.NA
    else if s = "kr" then Except.ok AccountRegion.KR
    else if s = "as" then Except.ok AccountRegion.AS
    else Except.error ("unknown variant " ++ s)
  | _ => Except.error "invalid type: expected a string"

/-- `account_data::ProfileBanner` (lib.rs:342–348). -/
structure ProfileBanner where
  small : String
  large : String
  wide : String
  id : String
deriving DecidableEq, Repr

/-- `account_data::AccountData` (lib.rs:330–340). -/
structure AccountData where
  puuid : String
  region : AccountRegion
  account_level : Nat
  name : String
  tag : String
  card : ProfileBanner
  last_update : String
  last_update_raw : Nat
deriving DecidableEq, Repr

/-- Derived `Deserialize` for `ProfileBanner`. -/
def decodeProfileBanner : Json → Except String ProfileBanner
  | Json.obj fields => do
    let small ← reqField fields "small" decodeString
    let large ← reqField fields "large" decodeString
    let wide ← reqField fields "wide" decodeString
    let id ← reqField fields "id" decodeString
    pure ⟨small, large, wide, id⟩
  | _ => Except.error "invalid type: expected struct ProfileBanner"

/-- Derived `Deserialize` for `AccountData`, the payload type used by the
crate's own envelope tests. -/
def decodeAccountData : Json → Except String AccountData
  | Json.obj fields => do
    let puuid ← reqField fields "puuid" decodeString
    let region ← reqField fields "region" AccountRegion.deserialize
    let account_level ← reqField fields "account_level" decodeU32
    let name ← reqField fields "name" decodeString
    let tag ← reqField fields "tag" decodeString
    let card ← reqField fields "card" decodeProfileBanner
    let last_update ← reqField fields "last_update" decodeString
    let last_update_raw ← reqField fields "last_update_raw" decodeU32
    pure ⟨puuid, region, account_level, name, tag, card, last_update, last_update_raw⟩
  | _ => Except.error "invalid type: expected struct AccountData"

/-- `ValorantApiType` (lib.rs:77–88): the two request kinds. `MMRData`
carries a region, account name, tag and an optional season filter;
`AccountData` carries name and tag. -/
inductive ValorantApiType where
  | MMRData (region : AccountRegion) (name : String) (tag : String)
      (filter : Option EpisodeAndAct) : ValorantApiType
  | AccountData (name : String) (tag : String) : ValorantApiType

/-- `ValorantApiType::to_url` (lib.rs:90–101):
`format!("v2/mmr/{}/{}/{}", region.to_value(), name, tag)` for `MMRData`
(the `filter` binding is unused by the source) and
`format!("v1/account/{}/{}", name, tag)` for `AccountData`. -/
def ValorantApiType.to_url : ValorantApiType → String
  | ValorantApiType.MMRData region name tag _filter =>
    "v2/mmr/" ++ region.to_value ++ "/" ++ name ++ "/" ++ tag
  | ValorantApiType.AccountData name tag =>
    "v1/account/" ++ name ++ "/" ++ tag

/-- The URL requested by `ValorantClient::request` (lib.rs:62):
`format!("{}/{}", self.api_end_point, api_type.to_url())`. -/
def requestUrl (api_end_point : String) (api_type : ValorantApiType) : String :=
  api_end_point ++ "/" ++ api_type.to_url

/-- The default endpoint (lib.rs:69–75). -/
def defaultApiEndPoint : String := "https://api.henrikdev.xyz/valorant"

/-- The 404 response body from the crate's `get_account_data_404` test
(lib.rs:118–127). -/
def response404 : Json :=
  Json.obj [("status", Json.num 404),
    ("errors", Json.arr [Json.obj [("message", Json.str "Not found"),
      ("code", Json.num 0), ("details", Json.str "null")]])]


/-- A JSON object shaped like an `ApiError` (the one from the crate's 404
test). -/
def notFoundErrorJson : Json :=
  Json.obj [("message", Json.str "Not found"), ("code", Json.num 0),
    ("details", Json.str "null")]

/-- A well-formed `card` object for `ProfileBanner`. -/
def profileBannerJson : Json :=
  Json.obj [("small", Json.str "small.png"), ("large", Json.str "large.png"),
    ("wide", Json.str "wide.png"), ("id", Json.str "bb6ae873")]

/-- A well-formed `data` object for `AccountData`. -/
def accountJson : Json :=
  Json.obj [("puuid", Json.str "b44adaae"), ("region", Json.str "eu"),
    ("account_level", Json.num 125), ("name", Json.str "NitroSniper"),
    ("tag", Json.str "NERD"), ("card", profileBannerJson),
    ("last_update", Json.str "12 minutes ago"),
    ("last_update_raw", Json.num 1676749780)]

/-- The `AccountData` value `accountJson` decodes to. -/
def accountVal : AccountData :=
  ⟨"b44adaae", AccountRegion.EU, 125, "NitroSniper", "NERD",
    ⟨"small.png", "large.png", "wide.png", "bb6ae873"⟩, "12 minutes ago",
    1676749780⟩


/-- An envelope body carrying BOTH a well-formed `data` and an `errors`
field. -/
def bothFieldsJson : Json :=
  Json.obj [("status", Json.num 200), ("data", accountJson),
    ("errors", Json.arr [notFoundErrorJson])]

/-- C1. The claim says a structurally well-formed token whose act digit is 0
or ≥ 4 (such as `"e5a5"`, `"e5a0"`) fails to parse with the generic
InvalidFormat error. The code has no act-range check at all: both inputs
parse successfully (moreover storing the scalar values of the digit
characters). The crate's own `edge_cases` test (lib.rs:296–298, 315–317)
asserts both parses are errors, so the code contradicts its own tests:
the claim is right and the code wrong. -/
theorem c1_act_range_unchecked :
    EpisodeAndAct.deserializeString "e5a5" = Except.ok ⟨53, 53⟩ ∧
    EpisodeAndAct.deserializeString "e5a0" = Except.ok ⟨53, 48⟩ :=
  ⟨rfl, rfl⟩

/-- C2. The claim says `parse(format(token)) = token` for every token with
episode 0–9 and act ∈ {1,2,3}. It fails already at
`token = ⟨episode 5, act 1⟩`: `to_value` renders `"e5a1"`, but the
`Deserialize` impl stores the digit characters' Unicode scalar values
(`char`→`u32` via `.into()`), giving `⟨53, 49⟩ ≠ ⟨5, 1⟩`. The serializer
and deserializer are mutually inconsistent (the round trip the code's own
doc comment at lib.rs:204–205 calls for), so the spec is the intent and
the conversion a slip. -/
theorem c2_round_trip_broken :
    EpisodeAndAct.deserializeString (EpisodeAndAct.to_value ⟨5, 1⟩) =
      Except.ok ⟨53, 49⟩ ∧
    (⟨53, 49⟩ : EpisodeAndAct) ≠ ⟨5, 1⟩ :=
  ⟨rfl, by decide⟩

/-- C3. The claim says `parse("e5a1")` yields episode 5 and act 1 (the
decimal digit values). The code instead stores the Unicode scalar values of
the digit characters: episode 53 (`'5'`) and act 49 (`'1'`). -/
theorem c3_parse_stores_scalar_values :
    EpisodeAndAct.deserializeString "e5a1" = Except.ok ⟨53, 49⟩ ∧
    (53 ≠ 5 ∧ 49 ≠ 1) :=
  ⟨rfl, by decide⟩

/-- C5. Confirmed: whenever the input's character count is not 4 the parser
fails with exactly the "Invalid length" error. -/
theorem c5_invalid_length (s : String) (h : s.data.length ≠ 4) :
    EpisodeAndAct.deserializeString s = Except.error "Invalid length" := by
  simp only [EpisodeAndAct.deserializeString]
  split
  · next e en a an heq => exact absurd (by rw [heq] ; rfl) h
  · rfl

/-- Witness for C5 at the 3-character input `"ea1"`. -/
theorem c5_invalid_length_witness :
    EpisodeAndAct.deserializeString "ea1" = Except.error "Invalid length" :=
  c5_invalid_length "ea1" (by decide)

/-- C6. Confirmed: a 4-character input whose position 0 is not `'e'` or
whose position 2 is not `'a'` fails with the InvalidFormat error, whose
message ends with the offending input text. -/
theorem c6_bad_markers (s : String) (c0 c1 c2 c3 : Char)
    (hd : s.data = [c0, c1, c2, c3]) (hm : c0 ≠ 'e' ∨ c2 ≠ 'a') :
    EpisodeAndAct.deserializeString s =
      Except.error ("Invalid format, format recieved: " ++ s) := by
  simp only [EpisodeAndAct.deserializeString, hd]
  rw [if_pos hm]

/-- Witness for C6 at the input `"sdfa"` from the crate's `edge_cases`
test. -/
theorem c6_bad_markers_witness :
    EpisodeAndAct.deserializeString "sdfa" =
      Except.error ("Invalid format, format recieved: " ++ "sdfa") :=
  c6_bad_markers "sdfa" 's' 'd' 'f' 'a' (by decide) (Or.inl (by decide))

/-- C7 counterexample. The claim says a 4-character input with correct
markers whose position 1 is not one of `'0'`–`'9'` fails with
InvalidFormat. The code tests `char::is_numeric`, which accepts every
Unicode number character: at `"e¾a1"` position 1 is `'¾'` (U+00BE, category
No) — not a decimal digit — yet parsing succeeds. -/
theorem c7_counterexample :
    ("e¾a1").data = ['e', '¾', 'a', '1'] ∧
    ('¾').isDigit = false ∧
    EpisodeAndAct.deserializeString "e¾a1" = Except.ok ⟨190, 49⟩ :=
  ⟨rfl, rfl, rfl⟩

/-- C7 amended: a 4-character input with correct markers whose position 1
or position 3 is not numeric in the sense of Rust's `char::is_numeric`
(Unicode number categories, a strict superset of `'0'`–`'9'`) fails with
InvalidFormat. -/
theorem c7_nonnumeric_rejected (s : String) (c0 c1 c2 c3 : Char)
    (hd : s.data = [c0, c1, c2, c3]) (h0 : c0 = 'e') (h2 : c2 = 'a')
    (hn : rustIsNumeric c1 = false ∨ rustIsNumeric c3 = false) :
    EpisodeAndAct.deserializeString s =
      Except.error ("Invalid format, format recieved: " ++ s) := by
  simp only [EpisodeAndAct.deserializeString, hd, h0, h2]
  rw [if_neg (by simp), if_pos hn]

/-- Witness for the amended C7 at the input `"exa1"`. -/
theorem c7_nonnumeric_rejected_witness :
    EpisodeAndAct.deserializeString "exa1" =
      Except.error ("Invalid format, format recieved: " ++ "exa1") :=
  c7_nonnumeric_rejected "exa1" 'e' 'x' 'a' '1' (by decide) rfl rfl
    (Or.inl (by decide))

/-- C4 counterexample. The claim says a body containing both `data` and
`errors` fails to decode. With `#[serde(untagged)]` the `Success` variant
is tried first and unknown fields are ignored, so such a body decodes
successfully to `Success`. -/
theorem c4_counterexample :
    decodeApiResponse decodeAccountData bothFieldsJson =
      Except.ok (ApiResponse.Success 200 accountVal) ∧
    (decodeApiResponse decodeAccountData bothFieldsJson).isOk = true :=
  ⟨rfl, rfl⟩

/-- C4 amended: envelope decoding of `ApiResponse<T>` yields `Success` for
a body with `data` (well-formed as `T`) and no `errors`; `Failure` for a
body with `errors` and no `data`; `Success` — not a failure — for a body
with both `data` (well-formed) and `errors` (the `Success` shape is tried
first and unknown fields are ignored); and fails to decode for a body with
neither. The concrete 404 body decodes to `Failure 404` with the single
"Not found" error. -/
theorem c4_envelope_decoding (T : Type) (decodeT : Json → Except String T)
    (n : Int) (d : Json) (t : T) (es : List Json) (errs : List ApiError)
    (hn : 0 ≤ n ∧ n < 4294967296)
    (hdec : decodeT d = Except.ok t)
    (he : decodeApiErrorList (Json.arr es) = Except.ok errs) :
    decodeApiResponse decodeT (Json.obj [("status", Json.num n), ("data", d)])
      = Except.ok (ApiResponse.Success n.toNat t) ∧
    decodeApiResponse decodeT
        (Json.obj [("status", Json.num n), ("errors", Json.arr es)])
      = Except.ok (ApiResponse.Failure n.toNat errs) ∧
    decodeApiResponse decodeT
        (Json.obj [("status", Json.num n), ("data", d), ("errors", Json.arr es)])
      = Except.ok (ApiResponse.Success n.toNat t) ∧
    decodeApiResponse decodeT (Json.obj [("status", Json.num n)])
      = Except.error "data did not match any variant of untagged enum ApiResponse" ∧
    decodeApiResponse decodeT response404
      = Except.ok (ApiResponse.Failure 404 [⟨"Not found", 0, "null"⟩]) := by
  refine ⟨?_, ?_, ?_, ?_, rfl⟩ <;>
    simp [decodeApiResponse, decodeSuccess, decodeFailure, successFields,
      failureFields, decodeU32, hdec, he, hn.1, hn.2]

/-- Witness for the amended C4, instantiated at `T = AccountData` with the
concrete body values defined above. -/
theorem c4_envelope_decoding_witness :
    decodeApiResponse decodeAccountData
        (Json.obj [("status", Json.num 200), ("data", accountJson)])
      = Except.ok (ApiResponse.Success 200 accountVal) ∧
    decodeApiResponse decodeAccountData
        (Json.obj [("status", Json.num 200),
          ("errors", Json.arr [notFoundErrorJson])])
      = Except.ok (ApiResponse.Failure 200 [⟨"Not found", 0, "null"⟩]) ∧
    decodeApiResponse decodeAccountData
        (Json.obj [("status", Json.num 200), ("data", accountJson),
          ("errors", Json.arr [notFoundErrorJson])])
      = Except.ok (ApiResponse.Success 200 accountVal) ∧
    decodeApiResponse decodeAccountData (Json.obj [("status", Json.num 200)])
      = Except.error "data did not match any variant of untagged enum ApiResponse" ∧
    decodeApiResponse decodeAccountData response404
      = Except.ok (ApiResponse.Failure 404 [⟨"Not found", 0, "null"⟩]) := by
  have h := c4_envelope_decoding AccountData decodeAccountData 200 accountJson
    accountVal [notFoundErrorJson] [⟨"Not found", 0, "null"⟩]
    (by decide) rfl rfl
  simpa using h

/-- C8 counterexample. The claim says the URL produced for an `MMRData`
request depends on the season filter when one is supplied. It does not:
the `filter` binding is unused by `to_url`, so supplying a filter and
supplying none produce the same URL. -/
theorem c8_counterexample :
    ValorantApiType.to_url
        (ValorantApiType.MMRData AccountRegion.EU "NitroSniper" "NERD"
          (some ⟨5, 1⟩)) =
      ValorantApiType.to_url
        (ValorantApiType.MMRData AccountRegion.EU "NitroSniper" "NERD" none) ∧
    ValorantApiType.to_url
        (ValorantApiType.MMRData AccountRegion.EU "NitroSniper" "NERD"
          (some ⟨5, 1⟩)) = "v2/mmr/eu/NitroSniper/NERD" :=
  ⟨rfl, rfl⟩

/-- C8 amended: the fetch operation requests
`"{base endpoint}/{resource path}"`, where for `MMRData` the path is
`v2/mmr/{region}/{name}/{tag}` — built from the region, account name and
tag only; the optional season filter is ignored — and for `AccountData` it
is `v1/account/{name}/{tag}`. -/
theorem c8_request_url (endpoint name tag : String) (region : AccountRegion)
    (filter filter2 : Option EpisodeAndAct) :
    requestUrl endpoint (ValorantApiType.MMRData region name tag filter)
      = endpoint ++ "/" ++
        ("v2/mmr/" ++ region.to_value ++ "/" ++ name ++ "/" ++ tag) ∧
    ValorantApiType.to_url (ValorantApiType.MMRData region name tag filter)
      = ValorantApiType.to_url
          (ValorantApiType.MMRData region name tag filter2) ∧
    requestUrl endpoint (ValorantApiType.AccountData name tag)
      = endpoint ++ "/" ++ ("v1/account/" ++ name ++ "/" ++ tag) :=
  ⟨rfl, rfl, rfl⟩

/-- C9. Confirmed: formatting is total — for every token, including ones
whose fields lie outside the valid digit ranges, the `Serialize` impl
produces the JSON string `"e{episode}a{act}"` (decimal, no padding), equal
to `to_value`'s output, with no re-validation of the fields. -/
theorem c9_format_total (ep act : Nat) :
    EpisodeAndAct.serialize ⟨ep, act⟩ =
      Json.str (EpisodeAndAct.to_value ⟨ep, act⟩) ∧
    EpisodeAndAct.to_value ⟨ep, act⟩ =
      "e" ++ Nat.repr ep ++ "a" ++ Nat.repr act ∧
    EpisodeAndAct.to_value ⟨53, 53⟩ = "e53a53" :=
  ⟨rfl, rfl, by decide⟩

/-- C10. Confirmed: for every region, `to_value` produces exactly the
string of the derived lowercase wire format — `Serialize` emits that very
string and `Deserialize` maps it back to the same region — with EU ↦
`"eu"`, NA ↦ `"na"`, KR ↦ `"kr"`, AS ↦ `"as"`. -/
theorem c10_region_wire_agreement (r : AccountRegion) :
    AccountRegion.serialize r = Json.str r.to_value ∧
    AccountRegion.deserialize (Json.str r.to_value) = Except.ok r ∧
    AccountRegion.to_value AccountRegion.EU = "eu" ∧
    AccountRegion.to_value AccountRegion.NA = "na" ∧
    AccountRegion.to_value AccountRegion.KR = "kr" ∧
    AccountRegion.to_value AccountRegion.AS = "as" := by
  cases r <;> exact ⟨rfl, rfl, rfl, rfl, rfl, rfl⟩

end Valorust
